import Mathlib

/-
Shallow embedding of the Trip-Budget-tracker backend (Express + Mongoose).
The repository is a single server file plus a Trip model file.  We embed the
data model (User, Trip, Expense documents), the stores as Lean lists, and each
route handler as a pure function from the request inputs and the store state to
an HTTP response together with the updated store state.  Library functions
(bcrypt hashing and comparison, jwt signing and verification, the email-format
validator) are abstract function parameters, since the handlers treat them as
opaque.
-/

/-- Expense sub-document, from ExpenseSchema in src/models/Trip.js:
description, amount, category (a string; the schema restricts it to an enum
with default Other) and date. -/
structure Expense where
  description : String
  amount : Int
  category : String
  date : Nat
deriving Repr, DecidableEq

/-- Trip document, from TripSchema in src/models/Trip.js: store id, owner id
(the user field, an ObjectId rendered as an opaque string), destination,
budget, optional startDate, and the embedded ordered list of expenses. -/
structure Trip where
  id : String
  user : String
  destination : String
  budget : Int
  startDate : Option Nat
  expenses : List Expense
deriving Repr, DecidableEq

/-- User document, from UserSchema in src/models/User.js: store id, username,
email (stored lowercased by the schema setter), password hash, profilePicture
path (default empty string). -/
structure User where
  id : String
  username : String
  email : String
  password : String
  profilePicture : String
deriving Repr, DecidableEq

/-- Response body variants the handlers produce: a plain message object, a
single trip document, a list of trip documents, or the token-plus-public-user
object returned by register and login. -/
inductive Body where
  | msg (s : String)
  | trip (t : Trip)
  | trips (ts : List Trip)
  | tokenUser (token : String) (id : String) (username : String) (email : String)
  | profilePicture (p : String)
  | userDoc (u : User)
deriving Repr, DecidableEq

/-- HTTP response: status code plus JSON body. -/
structure Response where
  status : Nat
  body : Body
deriving Repr, DecidableEq

/-- Decoded JWT payload as the auth middleware attaches it to the request:
the server signs the object user.id, and handlers read req.user.user.id;
we keep just that id. -/
structure TokenPayload where
  userId : String
deriving Repr, DecidableEq

/-- Lowercasing as the mongoose lowercase schema setter applies it to the
email (JavaScript toLowerCase), written over the character list so it
evaluates by kernel reduction. -/
def toLowerStr (s : String) : String :=
  ⟨s.data.map Char.toLower⟩

/-- String prefix test (JavaScript String.startsWith), written over the
character lists so it evaluates by kernel reduction. -/
def startsWithStr (s pre : String) : Bool :=
  pre.data.isPrefixOf s.data

/-- Replace the first occurrence of pat in a character list by nothing,
mirroring the JavaScript String.replace with a string pattern and empty
replacement, which rewrites only the first occurrence. -/
def replaceFirstAux (pat : List Char) : List Char → List Char
  | [] => []
  | c :: rest =>
    if pat.isPrefixOf (c :: rest) then List.drop pat.length (c :: rest)
    else c :: replaceFirstAux pat rest

/-- String version of replaceFirstAux (deletion of the first occurrence). -/
def replaceFirst (s pat : String) : String :=
  ⟨replaceFirstAux pat.data s.data⟩

/-- Token normalisation in the auth middleware, line 85 of the server file:
token.replace with the string Bearer followed by a space, so an optional
Bearer prefix is tolerated. -/
def stripBearer (t : String) : String :=
  replaceFirst t "Bearer "

/-- Auth middleware (lines 79-91 of the server file).  The header argument is
the Authorization header, none when absent.  The JavaScript test if not token
also treats an empty header string as missing (empty string is falsy).
verify abstracts jwt.verify, returning none when verification throws.
An error value means the middleware ended the request and the route handler
never ran; an ok value is the decoded payload attached as req.user. -/
def auth (verify : String → Option TokenPayload) (header : Option String) :
    Except Response TokenPayload :=
  match header with
  | none => .error ⟨401, Body.msg "No token, authorization denied"⟩
  | some t =>
    if t = "" then .error ⟨401, Body.msg "No token, authorization denied"⟩
    else
      match verify (stripBearer t) with
      | none => .error ⟨400, Body.msg "Token is not valid"⟩
      | some decoded => .ok decoded

/-- User.findOne on email (exact match on the stored email string). -/
def findUserByEmail (users : List User) (email : String) : Option User :=
  users.find? (fun u => u.email == email)

/-- User.findById. -/
def findUserById (users : List User) (uid : String) : Option User :=
  users.find? (fun u => u.id == uid)

/-- Trip.findById. -/
def findTrip (trips : List Trip) (tid : String) : Option Trip :=
  trips.find? (fun t => t.id == tid)

/-- Persisting document.save on an already-stored trip: replace the stored
document with the same id. -/
def updateTripStore (trips : List Trip) (t : Trip) : List Trip :=
  trips.map (fun x => if x.id == t.id then t else x)

/-- Persisting user.save on an already-stored user. -/
def updateUserStore (users : List User) (u : User) : List User :=
  users.map (fun x => if x.id == u.id then u else x)

/-- POST /api/register (lines 96-125).  First the existence check via
User.findOne; then user creation, where the schema setter lowercases the
email; saving runs the schema validation, and a validation failure (the
email-format validator on the stored email) is answered with 400 Invalid
Email Format; otherwise the user is stored with the hashed password and a
token plus the public user summary is returned.  isEmail abstracts
validator.isEmail, hash abstracts bcrypt hashing, sign abstracts jwt.sign on
the new user id; newId is the store-assigned id.  Required-field checks of
the schema are elided (all fields are given as total strings). -/
def register (users : List User) (isEmail : String → Bool)
    (hash : String → String) (sign : String → String)
    (newId username email password : String) : Response × List User :=
  match findUserByEmail users email with
  | some _ => (⟨400, Body.msg "User already exists"⟩, users)
  | none =>
    let emailLower := toLowerStr email
    if isEmail emailLower = false then
      (⟨400, Body.msg "Invalid Email Format"⟩, users)
    else
      let u : User :=
        { id := newId, username := username, email := emailLower,
          password := hash password, profilePicture := "" }
      (⟨200, Body.tokenUser (sign newId) newId username emailLower⟩,
        users ++ [u])

/-- POST /api/login (lines 128-150): look the user up by email, answer 400
Invalid Credentials when absent; compare the password against the stored hash
with bcrypt.compare (abstracted by bcompare), answer the identical 400
Invalid Credentials on mismatch; otherwise sign a token on the user id and
return it with the public user summary. -/
def login (users : List User) (bcompare : String → String → Bool)
    (sign : String → String) (email password : String) : Response :=
  match findUserByEmail users email with
  | none => ⟨400, Body.msg "Invalid Credentials"⟩
  | some u =>
    if bcompare password u.password = false then
      ⟨400, Body.msg "Invalid Credentials"⟩
    else
      ⟨200, Body.tokenUser (sign u.id) u.id u.username u.email⟩

/-- An uploaded multipart file as multer presents it: MIME type, size in
bytes, and the generated stored filename. -/
structure UploadedFile where
  mimetype : String
  size : Nat
  filename : String
deriving Repr, DecidableEq

/-- POST /api/user/avatar (upload configuration lines 53-63, handler lines
162-181).  The multer pipeline runs before the handler: the fileFilter
rejects any file whose MIME type does not start with image/, and the
fileSize limit rejects any file larger than 5 * 1024 * 1024 bytes; either
rejection surfaces through the framework error path (modelled as status 500
with the corresponding error message) and the handler body never runs, so
the user store is untouched.  An accepted request with no file answers 400;
otherwise the caller is looked up, 404 when absent, and on success the
profilePicture path is written and saved. -/
def uploadAvatar (users : List User) (callerId : String)
    (file : Option UploadedFile) : Response × List User :=
  match file with
  | none => (⟨400, Body.msg "No file uploaded"⟩, users)
  | some f =>
    if startsWithStr f.mimetype "image/" = false then
      (⟨500, Body.msg "Only images are allowed"⟩, users)
    else if 5 * 1024 * 1024 < f.size then
      (⟨500, Body.msg "File too large"⟩, users)
    else
      match findUserById users callerId with
      | none => (⟨404, Body.msg "User not found"⟩, users)
      | some u =>
        let u' : User := { u with profilePicture := "/uploads/" ++ f.filename }
        (⟨200, Body.profilePicture u'.profilePicture⟩, updateUserStore users u')

/-- GET /api/trips (lines 186-194): Trip.find on the caller id from the
token, returning exactly the trips whose user field equals it. -/
def listTrips (trips : List Trip) (callerId : String) : List Trip :=
  trips.filter (fun t => t.user == callerId)

/-- Request body of POST /api/trips.  The handler destructures only
destination, budget and startDate; a client may also send user or expenses
fields, which the destructuring never reads. -/
structure TripReqBody where
  destination : String
  budget : Int
  startDate : Option Nat
  user : Option String
  expenses : Option (List Expense)
deriving Repr, DecidableEq

/-- POST /api/trips (lines 197-211): build a new trip from the body's
destination, budget and startDate, with the user field taken from the
verified token (req.user.user.id) and an empty expenses list, save it and
return it.  newId is the store-assigned document id. -/
def createTrip (trips : List Trip) (newId callerId : String)
    (body : TripReqBody) : Response × List Trip :=
  let newTrip : Trip :=
    { id := newId, user := callerId, destination := body.destination,
      budget := body.budget, startDate := body.startDate, expenses := [] }
  (⟨200, Body.trip newTrip⟩, trips ++ [newTrip])

/-- POST /api/trips/:id/expenses (lines 214-229): Trip.findById, then the
ownership check comparing trip.user.toString against the caller id, then
push of the expense and save.  When the lookup finds nothing the code
dereferences trip.user on a null value before any ownership or existence
check; the TypeError is caught by the surrounding try block and answered as
500 Server Error, never as a 404. -/
def addExpense (trips : List Trip) (callerId tripId : String)
    (e : Expense) : Response × List Trip :=
  match findTrip trips tripId with
  | none => (⟨500, Body.msg "Server Error"⟩, trips)
  | some trip =>
    if trip.user != callerId then
      (⟨401, Body.msg "Not authorized"⟩, trips)
    else
      let trip' : Trip := { trip with expenses := trip.expenses ++ [e] }
      (⟨200, Body.trip trip'⟩, updateTripStore trips trip')

/-
Sample documents for the witness theorems.
-/

/-- Sample stored user with id u1. -/
def userAlice : User :=
  { id := "u1", username := "Alice", email := "alice@x.com",
    password := "hashed", profilePicture := "" }

/-- Sample stored trip owned by user u1. -/
def tripT1 : Trip :=
  { id := "t1", user := "u1", destination := "Tokyo", budget := 2000,
    startDate := none, expenses := [] }

/-- Sample expense document. -/
def expLunch : Expense :=
  { description := "lunch", amount := 12, category := "Food", date := 0 }

/-- Finding a trip by id after saving a document with the same id returns the
saved document: the first stored entry matching the id is the one replaced,
and it is still the first match afterwards. -/
theorem find?_update (tid : String) (tr tr' : Trip) (hid : tr'.id = tr.id) :
    ∀ l : List Trip, l.find? (fun t => t.id == tid) = some tr →
      (l.map (fun x => if x.id == tr'.id then tr' else x)).find?
        (fun t => t.id == tid) = some tr' := by
  intro l
  induction l with
  | nil => intro h; simp at h
  | cons a l ih =>
    intro h
    by_cases ha : (a.id == tid) = true
    · rw [List.find?_cons_of_pos (p := fun t : Trip => t.id == tid) l ha] at h
      injection h with h
      subst h
      have hfa : (a.id == tr'.id) = true := by rw [hid]; exact beq_self_eq_true a.id
      have hp : (tr'.id == tid) = true := by rw [hid]; exact ha
      simp only [List.map_cons, if_pos hfa]
      exact List.find?_cons_of_pos (p := fun t : Trip => t.id == tid) _ hp
    · rw [List.find?_cons_of_neg (p := fun t : Trip => t.id == tid) l ha] at h
      have htr := List.find?_some h
      have hfa : (a.id == tr'.id) = false := by
        rw [beq_eq_false_iff_ne]
        intro hcontra
        exact ha (by rw [hcontra, hid, eq_of_beq htr]; exact beq_self_eq_true tid)
      have hfa' : ¬((a.id == tr'.id) = true) := by simp [hfa]
      simp only [List.map_cons, if_neg hfa']
      rw [List.find?_cons_of_neg (p := fun t : Trip => t.id == tid) _ ha]
      exact ih h

/-- Unfolding of a successful add-expense call on an owned trip: the
response carries the trip with the expense appended, and the store saves
that same trip. -/
theorem addExpense_step (trips : List Trip) (callerId tripId : String)
    (e : Expense) (trip : Trip)
    (hfind : findTrip trips tripId = some trip)
    (hown : trip.user = callerId) :
    addExpense trips callerId tripId e
      = (⟨200, Body.trip { trip with expenses := trip.expenses ++ [e] }⟩,
         updateTripStore trips { trip with expenses := trip.expenses ++ [e] }) := by
  have hne : (trip.user != callerId) = false := by simp [hown]
  simp [addExpense, hfind, hne]

/-- C1: an add-expense request on an existing trip whose stored owner id
differs from the caller's token id answers 401 and leaves the trip store,
expenses included, unchanged. -/
theorem addExpense_not_owner_401 (trips : List Trip) (callerId tripId : String)
    (e : Expense) (trip : Trip)
    (hfind : findTrip trips tripId = some trip)
    (hown : trip.user ≠ callerId) :
    addExpense trips callerId tripId e = (⟨401, Body.msg "Not authorized"⟩, trips) := by
  have hne : (trip.user != callerId) = true := by simp [bne_iff_ne, hown]
  simp [addExpense, hfind, hne]

/-- Witness for C1: user u2 adding an expense to trip t1 owned by u1 gets
401 and the store is unchanged. -/
theorem addExpense_not_owner_401_witness :
    addExpense [tripT1] "u2" "t1" expLunch
      = (⟨401, Body.msg "Not authorized"⟩, [tripT1]) :=
  addExpense_not_owner_401 [tripT1] "u2" "t1" expLunch tripT1 (by decide) (by decide)

/-- C6: a successful add-expense on an owned trip returns and stores the trip
with the new expense appended at the end, previous entries and their order
preserved; the operation is not idempotent: replaying the identical call
appends again, giving two entries. -/
theorem addExpense_appends (trips : List Trip) (callerId tripId : String)
    (e : Expense) (trip : Trip)
    (hfind : findTrip trips tripId = some trip)
    (hown : trip.user = callerId) :
    (addExpense trips callerId tripId e).1
      = ⟨200, Body.trip { trip with expenses := trip.expenses ++ [e] }⟩
    ∧ findTrip (addExpense trips callerId tripId e).2 tripId
      = some { trip with expenses := trip.expenses ++ [e] }
    ∧ findTrip (addExpense (addExpense trips callerId tripId e).2 callerId tripId e).2 tripId
      = some { trip with expenses := trip.expenses ++ [e, e] } := by
  have h1 := addExpense_step trips callerId tripId e trip hfind hown
  have h1b : (addExpense trips callerId tripId e).2
      = updateTripStore trips { trip with expenses := trip.expenses ++ [e] } := by
    rw [h1]
  have h2 : findTrip
        (updateTripStore trips { trip with expenses := trip.expenses ++ [e] }) tripId
      = some { trip with expenses := trip.expenses ++ [e] } :=
    find?_update tripId trip { trip with expenses := trip.expenses ++ [e] } rfl trips hfind
  have hown2 : ({ trip with expenses := trip.expenses ++ [e] } : Trip).user = callerId := hown
  have h3 := addExpense_step
    (updateTripStore trips { trip with expenses := trip.expenses ++ [e] })
    callerId tripId e { trip with expenses := trip.expenses ++ [e] } h2 hown2
  have heq : ({ { trip with expenses := trip.expenses ++ [e] } with
        expenses := ({ trip with expenses := trip.expenses ++ [e] } : Trip).expenses ++ [e] } : Trip)
      = { trip with expenses := trip.expenses ++ [e, e] } := by
    simp
  rw [heq] at h3
  have h3b : (addExpense
        (updateTripStore trips { trip with expenses := trip.expenses ++ [e] })
        callerId tripId e).2
      = updateTripStore
          (updateTripStore trips { trip with expenses := trip.expenses ++ [e] })
          { trip with expenses := trip.expenses ++ [e, e] } := by
    rw [h3]
  have h4 : findTrip (updateTripStore
        (updateTripStore trips { trip with expenses := trip.expenses ++ [e] })
        { trip with expenses := trip.expenses ++ [e, e] }) tripId
      = some { trip with expenses := trip.expenses ++ [e, e] } :=
    find?_update tripId { trip with expenses := trip.expenses ++ [e] }
      { trip with expenses := trip.expenses ++ [e, e] } rfl _ h2
  refine ⟨by rw [h1], by rw [h1b]; exact h2, ?_⟩
  rw [h1b, h3b]
  exact h4

/-- Witness for C6: owner u1 adds the same expense twice to trip t1; the
first call stores one copy, the second a second copy at the end. -/
theorem addExpense_appends_witness :
    (addExpense [tripT1] "u1" "t1" expLunch).1
      = ⟨200, Body.trip { tripT1 with expenses := tripT1.expenses ++ [expLunch] }⟩
    ∧ findTrip (addExpense [tripT1] "u1" "t1" expLunch).2 "t1"
      = some { tripT1 with expenses := tripT1.expenses ++ [expLunch] }
    ∧ findTrip (addExpense (addExpense [tripT1] "u1" "t1" expLunch).2 "u1" "t1" expLunch).2 "t1"
      = some { tripT1 with expenses := tripT1.expenses ++ [expLunch, expLunch] } :=
  addExpense_appends [tripT1] "u1" "t1" expLunch tripT1 (by decide) rfl

/-- C8: an add-expense request whose trip id resolves to no stored trip is
not answered with a clean 404: the code dereferences the null lookup result
at the ownership check, and the fault is mapped by the surrounding catch to
a 500 Server Error, with the store unchanged. -/
theorem addExpense_missing_trip_faults (trips : List Trip) (callerId tripId : String)
    (e : Expense) (hfind : findTrip trips tripId = none) :
    addExpense trips callerId tripId e = (⟨500, Body.msg "Server Error"⟩, trips)
    ∧ (addExpense trips callerId tripId e).1.status ≠ 404 := by
  have h : addExpense trips callerId tripId e = (⟨500, Body.msg "Server Error"⟩, trips) := by
    simp [addExpense, hfind]
  exact ⟨h, by rw [h]; simp⟩

/-- Witness for C8: adding an expense to the unknown trip id nope answers
500 Server Error, not 404, and the store is unchanged. -/
theorem addExpense_missing_trip_faults_witness :
    addExpense [tripT1] "u1" "nope" expLunch = (⟨500, Body.msg "Server Error"⟩, [tripT1])
    ∧ (addExpense [tripT1] "u1" "nope" expLunch).1.status ≠ 404 :=
  addExpense_missing_trip_faults [tripT1] "u1" "nope" expLunch (by decide)

/-- C3: the auth gate answers 401 No token when the Authorization header is
absent and the handler does not run; it answers 400 Token is not valid when
a token is present (with or without a Bearer prefix) but verification
fails, the handler again not running; otherwise it attaches the decoded
identity and lets the handler proceed. -/
theorem auth_gate_spec (verify : String → Option TokenPayload)
    (header : Option String) :
    (header = none →
      auth verify header = .error ⟨401, Body.msg "No token, authorization denied"⟩)
    ∧ (∀ t, header = some t → t ≠ "" → verify (stripBearer t) = none →
      auth verify header = .error ⟨400, Body.msg "Token is not valid"⟩)
    ∧ (∀ t p, header = some t → t ≠ "" → verify (stripBearer t) = some p →
      auth verify header = .ok p) := by
  refine ⟨?_, ?_, ?_⟩
  · rintro rfl; rfl
  · rintro t rfl ht hv
    simp [auth, ht, hv]
  · rintro t p rfl ht hv
    simp [auth, ht, hv]

/-- Witness for C3 at a concrete verifier accepting exactly the token tok:
missing header gives 401, a bad Bearer token gives 400, a good Bearer token
attaches the decoded identity. -/
theorem auth_gate_spec_witness :
    auth (fun s => if s = "tok" then some ⟨"u1"⟩ else none) none
      = .error ⟨401, Body.msg "No token, authorization denied"⟩
    ∧ auth (fun s => if s = "tok" then some ⟨"u1"⟩ else none) (some "Bearer bad")
      = .error ⟨400, Body.msg "Token is not valid"⟩
    ∧ auth (fun s => if s = "tok" then some ⟨"u1"⟩ else none) (some "Bearer tok")
      = .ok ⟨"u1"⟩ :=
  ⟨(auth_gate_spec (fun s => if s = "tok" then some ⟨"u1"⟩ else none) none).1 rfl,
   (auth_gate_spec (fun s => if s = "tok" then some ⟨"u1"⟩ else none)
      (some "Bearer bad")).2.1 "Bearer bad" rfl (by decide) (by decide),
   (auth_gate_spec (fun s => if s = "tok" then some ⟨"u1"⟩ else none)
      (some "Bearer tok")).2.2 "Bearer tok" ⟨"u1"⟩ rfl (by decide) (by decide)⟩

/-- C2: a login failing because the email is unknown and a login failing
because the password does not match the stored hash produce the identical
response, status 400 with message Invalid Credentials, so the response does
not reveal which cause occurred. -/
theorem login_invalid_credentials_identical (users : List User)
    (bcompare : String → String → Bool) (sign : String → String)
    (email password : String) :
    (findUserByEmail users email = none →
      login users bcompare sign email password
        = ⟨400, Body.msg "Invalid Credentials"⟩)
    ∧ (∀ u, findUserByEmail users email = some u →
        bcompare password u.password = false →
      login users bcompare sign email password
        = ⟨400, Body.msg "Invalid Credentials"⟩) := by
  constructor
  · intro h; simp [login, h]
  · intro u h hc; simp [login, h, hc]

/-- Witness for C2: with one stored user, an unknown email and a wrong
password for the known email yield the same 400 Invalid Credentials
response. -/
theorem login_invalid_credentials_identical_witness :
    login [userAlice] (fun _ _ => false) (fun i => i) "bob@x.com" "pw"
      = ⟨400, Body.msg "Invalid Credentials"⟩
    ∧ login [userAlice] (fun _ _ => false) (fun i => i) "alice@x.com" "pw"
      = ⟨400, Body.msg "Invalid Credentials"⟩ :=
  ⟨(login_invalid_credentials_identical [userAlice] (fun _ _ => false)
      (fun i => i) "bob@x.com" "pw").1 (by decide),
   (login_invalid_credentials_identical [userAlice] (fun _ _ => false)
      (fun i => i) "alice@x.com" "pw").2 userAlice (by decide) rfl⟩

/-- C4: registering with an email already present answers 400 User already
exists and stores no new user; registering an absent email that fails the
email-format validation answers 400 Invalid Email Format and stores no
user. -/
theorem register_duplicate_or_invalid_email (users : List User)
    (isEmail : String → Bool) (hash : String → String) (sign : String → String)
    (newId username email password : String) :
    (∀ u, findUserByEmail users email = some u →
      register users isEmail hash sign newId username email password
        = (⟨400, Body.msg "User already exists"⟩, users))
    ∧ (findUserByEmail users email = none → isEmail (toLowerStr email) = false →
      register users isEmail hash sign newId username email password
        = (⟨400, Body.msg "Invalid Email Format"⟩, users)) := by
  constructor
  · intro u h; simp [register, h]
  · intro h hv; simp [register, h, hv]

/-- Witness for C4: re-registering the stored email fails with User already
exists, and registering a malformed email fails with Invalid Email Format;
the store is unchanged both times. -/
theorem register_duplicate_or_invalid_email_witness :
    register [userAlice] (fun s => s == "alice@x.com") (fun p => p) (fun i => i)
        "u2" "Bob" "alice@x.com" "pw"
      = (⟨400, Body.msg "User already exists"⟩, [userAlice])
    ∧ register [userAlice] (fun s => s == "alice@x.com") (fun p => p) (fun i => i)
        "u2" "Bob" "Bob@@x" "pw"
      = (⟨400, Body.msg "Invalid Email Format"⟩, [userAlice]) :=
  ⟨(register_duplicate_or_invalid_email [userAlice] (fun s => s == "alice@x.com")
      (fun p => p) (fun i => i) "u2" "Bob" "alice@x.com" "pw").1 userAlice (by decide),
   (register_duplicate_or_invalid_email [userAlice] (fun s => s == "alice@x.com")
      (fun p => p) (fun i => i) "u2" "Bob" "Bob@@x" "pw").2 (by decide) (by decide)⟩

/-- C5: list-trips returns exactly the trips whose user field equals the
caller id, and a trip owned by one user never appears in a different user's
listing. -/
theorem listTrips_exactly_owned (trips : List Trip) :
    (∀ uid t, t ∈ listTrips trips uid ↔ t ∈ trips ∧ t.user = uid)
    ∧ (∀ a b : String, a ≠ b → ∀ t, t ∈ trips → t.user = a →
        t ∉ listTrips trips b) := by
  have hmem : ∀ uid t, t ∈ listTrips trips uid ↔ t ∈ trips ∧ t.user = uid := by
    intro uid t
    simp [listTrips, List.mem_filter]
  refine ⟨hmem, ?_⟩
  intro a b hab t ht hta hmemb
  exact hab (hta.symm.trans ((hmem b t).1 hmemb).2)

/-- Witness for C5: the trip owned by u1 is listed for u1 and is not listed
for the distinct user u9. -/
theorem listTrips_exactly_owned_witness :
    (tripT1 ∈ listTrips [tripT1] "u1" ↔ tripT1 ∈ [tripT1] ∧ tripT1.user = "u1")
    ∧ tripT1 ∉ listTrips [tripT1] "u9" :=
  ⟨(listTrips_exactly_owned [tripT1]).1 "u1" tripT1,
   (listTrips_exactly_owned [tripT1]).2 "u1" "u9" (by decide) tripT1 (by simp) rfl⟩

/-- C7: create-trip returns a 200 response whose trip carries the requested
destination and budget, an empty expenses list, and the caller id from the
verified token as its user field. -/
theorem createTrip_returns_requested (trips : List Trip) (newId callerId : String)
    (body : TripReqBody) :
    ∃ t : Trip, (createTrip trips newId callerId body).1 = ⟨200, Body.trip t⟩
      ∧ t.destination = body.destination ∧ t.budget = body.budget
      ∧ t.expenses = [] ∧ t.user = callerId :=
  ⟨_, rfl, rfl, rfl, rfl, rfl⟩

/-- C10: the stored owner of a created trip always comes from the verified
token identity, and the user and expenses fields a client may send in the
request body are ignored: changing them changes nothing about the result. -/
theorem createTrip_owner_from_token (trips : List Trip) (newId callerId : String)
    (body : TripReqBody) (bodyUser : Option String)
    (bodyExpenses : Option (List Expense)) :
    createTrip trips newId callerId
        { body with user := bodyUser, expenses := bodyExpenses }
      = createTrip trips newId callerId body
    ∧ ∃ t : Trip, (createTrip trips newId callerId body).2 = trips ++ [t]
        ∧ t.user = callerId :=
  ⟨rfl, _, rfl, rfl⟩

/-- C9: an avatar upload is accepted only when the MIME type starts with
image/ and the size is at most 5 * 1024 * 1024 bytes; a file violating
either constraint is rejected through the upload pipeline's error path with
no store mutation, so every stored user, profilePicture field included, is
unchanged. -/
theorem uploadAvatar_rejects_bad_file (users : List User) (callerId : String)
    (f : UploadedFile)
    (h : startsWithStr f.mimetype "image/" = false ∨ 5 * 1024 * 1024 < f.size) :
    (uploadAvatar users callerId (some f)).2 = users
    ∧ (uploadAvatar users callerId (some f)).1.status = 500
    ∧ ∀ u ∈ users, ∃ u' ∈ (uploadAvatar users callerId (some f)).2,
        u'.id = u.id ∧ u'.profilePicture = u.profilePicture := by
  have key : (uploadAvatar users callerId (some f)).2 = users
      ∧ (uploadAvatar users callerId (some f)).1.status = 500 := by
    rcases h with h | h
    · constructor <;> simp [uploadAvatar, h]
    · by_cases him : startsWithStr f.mimetype "image/" = false
      · constructor <;> simp [uploadAvatar, him]
      · have him' : startsWithStr f.mimetype "image/" = true := by
          cases hb : startsWithStr f.mimetype "image/"
          · exact absurd hb him
          · rfl
        constructor <;> simp [uploadAvatar, him', h]
  refine ⟨key.1, key.2, ?_⟩
  intro u hu
  exact ⟨u, by rw [key.1]; exact hu, rfl, rfl⟩

/-- Witness for C9: a 6 MiB image upload is rejected and the one-user store
is unchanged, the stored profilePicture included. -/
theorem uploadAvatar_rejects_bad_file_witness :
    (uploadAvatar [userAlice] "u1"
        (some ⟨"image/jpeg", 6 * 1024 * 1024, "big.jpg"⟩)).2 = [userAlice]
    ∧ (uploadAvatar [userAlice] "u1"
        (some ⟨"image/jpeg", 6 * 1024 * 1024, "big.jpg"⟩)).1.status = 500
    ∧ ∀ u ∈ [userAlice], ∃ u' ∈ (uploadAvatar [userAlice] "u1"
        (some ⟨"image/jpeg", 6 * 1024 * 1024, "big.jpg"⟩)).2,
        u'.id = u.id ∧ u'.profilePicture = u.profilePicture :=
  uploadAvatar_rejects_bad_file [userAlice] "u1"
    ⟨"image/jpeg", 6 * 1024 * 1024, "big.jpg"⟩ (Or.inr (by decide))
